import Mathlib

/-!
Shallow embedding of the AddressBook HTTP service (src/server.js, main
variant) together with the two handlers of src/unnamed/part_002 that the
claims cite: its DELETE handler (which reports ContactNotFound) and its
case-insensitive duplicate check on POST.

JS strings are modelled as Lean strings; the ASCII-only character classes
of the validation regexes are modelled as explicit character predicates.
JS `toLowerCase`/`trim` are modelled on the ASCII range, which covers every
comparison the handlers perform on the modelled data.
-/

set_option autoImplicit false

namespace Server

/-! ## Character classes of the validation regexes -/

/-- Character class `[A-Z]`. -/
def isUpperAlpha (c : Char) : Bool := 'A' ≤ c && c ≤ 'Z'

/-- Character class `[a-z]`. -/
def isLowerAlpha (c : Char) : Bool := 'a' ≤ c && c ≤ 'z'

/-- Character class `[a-zA-Z]`. -/
def isAlphaChar (c : Char) : Bool := isUpperAlpha c || isLowerAlpha c

/-- Character class `\d` = `[0-9]`. -/
def isDigitChar (c : Char) : Bool := '0' ≤ c && c ≤ '9'

/-- Line terminators, which `.` does not match in a JS regex without the `s` flag. -/
def isLineTerm (c : Char) : Bool :=
  c == '\n' || c == '\r' || c == ' ' || c == ' '

/-! ## Validation functions (src/server.js lines 20-38) -/

/-- Embeds `isValidName`: `/^[A-Z][a-zA-Z]{2,}$/.test(name)`. -/
def isValidName (s : String) : Bool :=
  match s.data with
  | [] => false
  | c :: rest => isUpperAlpha c && rest.all isAlphaChar && decide (2 ≤ rest.length)

/-- Embeds `isValidAddress`: `/^.{4,}$/.test(address)`. -/
def isValidAddress (s : String) : Bool :=
  s.data.all (fun c => !isLineTerm c) && decide (4 ≤ s.data.length)

/-- Embeds `isValidZip`: `/^\d{5,6}$/.test(zip)`. -/
def isValidZip (s : String) : Bool :=
  s.data.all isDigitChar && (s.data.length == 5 || s.data.length == 6)

/-- Embeds `isValidPhone`: `/^\d{10}$/.test(phone)`. -/
def isValidPhone (s : String) : Bool :=
  s.data.all isDigitChar && s.data.length == 10

/-- Character class `[a-zA-Z0-9._%+-]` (the local part of the email regex). -/
def isLocalChar (c : Char) : Bool :=
  isAlphaChar c || isDigitChar c || c == '.' || c == '_' || c == '%' || c == '+' || c == '-'

/-- Character class `[a-zA-Z0-9.-]` (the domain part of the email regex). -/
def isDomainChar (c : Char) : Bool :=
  isAlphaChar c || isDigitChar c || c == '.' || c == '-'

/-- Matches `[a-zA-Z0-9.-]*\.[a-zA-Z]{2,}` against the whole list: some split
point gives a literal dot followed by at least two letters, every character
before the split being a domain character. -/
def tldSplitOk : List Char → Bool
  | [] => false
  | c :: cs =>
      (c == '.' && cs.all isAlphaChar && decide (2 ≤ cs.length)) ||
      (isDomainChar c && tldSplitOk cs)

/-- Matches `[a-zA-Z0-9.-]+\.[a-zA-Z]{2,}` against the whole list (the part of
the email regex after the `@`). -/
def domainOk : List Char → Bool
  | [] => false
  | c :: cs => isDomainChar c && tldSplitOk cs

/-- Consumes the local part after its first character: local characters up to
the first `@` (which no character class contains), then the domain part. -/
def emailRest : List Char → Bool
  | [] => false
  | c :: cs => if c == '@' then domainOk cs else isLocalChar c && emailRest cs

/-- Embeds `isValidEmail`:
`/^[a-zA-Z0-9._%+-]+@[a-zA-Z0-9.-]+\.[a-zA-Z]{2,}$/.test(email)`. -/
def isValidEmail (s : String) : Bool :=
  match s.data with
  | [] => false
  | c :: cs => isLocalChar c && emailRest cs

/-! ## Data model -/

/-- A contact record: the eight fields destructured from `req.body` in the
POST handler (src/server.js line 58). -/
structure Contact where
  firstName : String
  lastName : String
  address : String
  city : String
  state : String
  zip : String
  phoneNumber : String
  email : String
deriving DecidableEq

/-- The conjunction of the five validation checks of the POST handler
(src/server.js lines 61-75); each failing check answers 400 ValidationFailed
before any mutation. -/
def isValidContact (c : Contact) : Bool :=
  isValidName c.firstName && isValidName c.lastName &&
  isValidAddress c.address && isValidAddress c.city && isValidAddress c.state &&
  isValidZip c.zip && isValidPhone c.phoneNumber && isValidEmail c.email

/-- The in-memory store `addressBooks`: a JS object mapping book names to
arrays of contacts, modelled as an association list with first-key lookup. -/
abbrev AddressBooks := List (String × List Contact)

/-- Object property read `addressBooks[bookName]`. -/
def getBook : AddressBooks → String → Option (List Contact)
  | [], _ => none
  | (k, v) :: rest, name => if k = name then some v else getBook rest name

/-- Object property write `addressBooks[bookName] = cs` for an existing key
(the handlers only assign to keys they have already found present). -/
def setBook : AddressBooks → String → List Contact → AddressBooks
  | [], _, _ => []
  | (k, v) :: rest, name, cs =>
      if k = name then (k, cs) :: rest else (k, v) :: setBook rest name cs

/-! ## Operation results

The error vocabulary follows section 7 of the specification: AlreadyExists,
BookNotFound, ContactNotFound, ValidationFailed, DuplicateContact, each
surfaced as a 4xx response. Each result type lists the responses of the
corresponding handler; UpdResult also carries validationFailed so that its
absence from the update handler is expressible. -/

/-- Outcome of the POST contact handler. -/
inductive AddResult where
  | ok (c : Contact)
  | bookNotFound
  | validationFailed
  | duplicate
deriving DecidableEq

/-- Outcome of the PUT contact handler. -/
inductive UpdResult where
  | ok (c : Contact)
  | bookNotFound
  | contactNotFound
  | validationFailed
deriving DecidableEq

/-- Outcome of the DELETE contact handler. -/
inductive DelResult where
  | ok
  | bookNotFound
  | contactNotFound
deriving DecidableEq

/-! ## Handlers of src/server.js (main variant) -/

/-- Embeds the POST `/addressBooks/:bookName/contacts` handler
(src/server.js lines 52-88): book lookup, the five validation checks, the
case-sensitive duplicate check on (firstName, lastName), then `push`. -/
def addContact (books : AddressBooks) (bookName : String) (c : Contact) :
    AddResult × AddressBooks :=
  match getBook books bookName with
  | none => (.bookNotFound, books)
  | some contacts =>
    if !isValidContact c then (.validationFailed, books)
    else if contacts.any (fun k =>
        k.firstName == c.firstName && k.lastName == c.lastName) then
      (.duplicate, books)
    else (.ok c, setBook books bookName (contacts ++ [c]))

/-- Embeds the GET `/addressBooks/:bookName/contacts` handler
(src/server.js lines 91-97). -/
def listContacts (books : AddressBooks) (bookName : String) :
    Option (List Contact) :=
  getBook books bookName

/-- JS ASCII `toLowerCase()` as the handlers use it. -/
def lowerStr (s : String) : String := ⟨s.data.map Char.toLower⟩

/-- JS whitespace characters relevant to `trim()` on the modelled data. -/
def isWsChar (c : Char) : Bool :=
  c == ' ' || c == '\t' || c == '\n' || c == '\r' || c == '\x0b' || c == '\x0c'

/-- JS `trim()`: strips whitespace from both ends. -/
def trimStr (s : String) : String :=
  ⟨((s.data.dropWhile isWsChar).reverse.dropWhile isWsChar).reverse⟩

/-- JS truthiness of an optional query-string parameter: an absent parameter
is `undefined` (falsy) and an empty string is falsy. -/
def truthy : Option String → Bool
  | none => false
  | some s => !(s == "")

/-- The filtering block shared verbatim by the search handler
(src/server.js lines 139-146) and the countByLocation handler
(src/server.js lines 160-167): each truthy query parameter filters by
`contact.field.toLowerCase() === q.toLowerCase().trim()`. -/
def locFilter (contacts : List Contact) (city state : Option String) :
    List Contact :=
  let l1 :=
    if truthy city then
      contacts.filter (fun k => lowerStr k.city == trimStr (lowerStr (city.getD "")))
    else contacts
  if truthy state then
    l1.filter (fun k => lowerStr k.state == trimStr (lowerStr (state.getD "")))
  else l1

/-- Embeds the GET `/addressBooks/:bookName/contacts/search` handler
(src/server.js lines 131-149). -/
def searchContacts (books : AddressBooks) (bookName : String)
    (city state : Option String) : Option (List Contact) :=
  match getBook books bookName with
  | none => none
  | some contacts => some (locFilter contacts city state)

/-- The JSON body of a countByLocation response (src/server.js line 169),
without the constant message field. -/
structure CountResponse where
  city : String
  state : String
  count : Nat
deriving DecidableEq

/-- Embeds the GET `/addressBooks/:bookName/contacts/countByLocation` handler
(src/server.js lines 152-170); `city || "N/A"` echoes a truthy parameter and
substitutes "N/A" otherwise. -/
def countByLocation (books : AddressBooks) (bookName : String)
    (city state : Option String) : Option CountResponse :=
  match getBook books bookName with
  | none => none
  | some contacts =>
    { city := if truthy city then city.getD "" else "N/A"
      state := if truthy state then state.getD "" else "N/A"
      count := (locFilter contacts city state).length : CountResponse }

/-- A PUT request body: a partial contact, each field present or absent. -/
structure Payload where
  firstName : Option String
  lastName : Option String
  address : Option String
  city : Option String
  state : Option String
  zip : Option String
  phoneNumber : Option String
  email : Option String
deriving DecidableEq

/-- JS `Object.assign(contact, req.body)`: each field present in the payload
overwrites, each absent field is retained. -/
def mergeContact (c : Contact) (p : Payload) : Contact :=
  { firstName := p.firstName.getD c.firstName
    lastName := p.lastName.getD c.lastName
    address := p.address.getD c.address
    city := p.city.getD c.city
    state := p.state.getD c.state
    zip := p.zip.getD c.zip
    phoneNumber := p.phoneNumber.getD c.phoneNumber
    email := p.email.getD c.email }

/-- In-place mutation of the first contact satisfying `pf` (the effect of
`Object.assign` on the object returned by `find`). -/
def replaceFirst (pf : Contact → Bool) (m : Contact) : List Contact → List Contact
  | [] => []
  | k :: rest => if pf k then m :: rest else k :: replaceFirst pf m rest

/-- Embeds the PUT `/addressBooks/:bookName/contacts/:name` handler
(src/server.js lines 100-115): `find` by firstName, then `Object.assign` on
the found record; no validation is run. -/
def updateContact (books : AddressBooks) (bookName name : String) (p : Payload) :
    UpdResult × AddressBooks :=
  match getBook books bookName with
  | none => (.bookNotFound, books)
  | some contacts =>
    match contacts.find? (fun k => k.firstName == name) with
    | none => (.contactNotFound, books)
    | some old =>
      (.ok (mergeContact old p),
       setBook books bookName
         (replaceFirst (fun k => k.firstName == name) (mergeContact old p) contacts))

/-- Embeds the DELETE `/addressBooks/:bookName/contacts/:name` handler of the
main variant (src/server.js lines 118-128): filters out every contact whose
firstName equals the path parameter and always reports success when the book
exists, with no not-found check on the contact. -/
def deleteContact (books : AddressBooks) (bookName name : String) :
    DelResult × AddressBooks :=
  match getBook books bookName with
  | none => (.bookNotFound, books)
  | some contacts =>
    (.ok, setBook books bookName (contacts.filter (fun k => !(k.firstName == name))))

/-! ## Cited handlers of src/unnamed/part_002 -/

/-- Embeds the DELETE `/addressBooks/:bookName/contacts/:name` handler of
src/unnamed/part_002 (lines 115-133): removes every contact whose firstName
or lastName equals the path parameter and answers 404 ContactNotFound when
the filter removed nothing. -/
def deleteContactV2 (books : AddressBooks) (bookName name : String) :
    DelResult × AddressBooks :=
  match getBook books bookName with
  | none => (.bookNotFound, books)
  | some contacts =>
    let filtered := contacts.filter (fun k =>
      !(k.firstName == name) && !(k.lastName == name))
    if contacts.length == filtered.length then (.contactNotFound, books)
    else (.ok, setBook books bookName filtered)

/-- Embeds the POST contact handler of the second document of
src/unnamed/part_002 (lines 190-229), whose duplicate check compares
firstName and lastName case-insensitively (lines 214-222); the validation
checks are identical to the main variant. -/
def addContactCI (books : AddressBooks) (bookName : String) (c : Contact) :
    AddResult × AddressBooks :=
  match getBook books bookName with
  | none => (.bookNotFound, books)
  | some contacts =>
    if !isValidContact c then (.validationFailed, books)
    else if contacts.any (fun k =>
        lowerStr k.firstName == lowerStr c.firstName &&
        lowerStr k.lastName == lowerStr c.lastName) then
      (.duplicate, books)
    else (.ok c, setBook books bookName (contacts ++ [c]))

/-! ## Specification-side predicates -/

/-- The specification wording for name validation: an uppercase ASCII letter
followed by at least two more ASCII letters of either case (total length at
least 3 follows). Stated independently of `isValidName` for comparison. -/
def NameSpec (s : String) : Prop :=
  ∃ c rest, s.data = c :: rest ∧ ('A' ≤ c ∧ c ≤ 'Z') ∧
    (∀ d ∈ rest, ('A' ≤ d ∧ d ≤ 'Z') ∨ ('a' ≤ d ∧ d ≤ 'z')) ∧ 2 ≤ rest.length

/-- The specification wording for the partial update: every field present in
the payload takes the payload value and every absent field retains its
previous value. -/
def FieldMergeSpec (old : Contact) (p : Payload) (m : Contact) : Prop :=
  (∀ v, p.firstName = some v → m.firstName = v) ∧
  (p.firstName = none → m.firstName = old.firstName) ∧
  (∀ v, p.lastName = some v → m.lastName = v) ∧
  (p.lastName = none → m.lastName = old.lastName) ∧
  (∀ v, p.address = some v → m.address = v) ∧
  (p.address = none → m.address = old.address) ∧
  (∀ v, p.city = some v → m.city = v) ∧
  (p.city = none → m.city = old.city) ∧
  (∀ v, p.state = some v → m.state = v) ∧
  (p.state = none → m.state = old.state) ∧
  (∀ v, p.zip = some v → m.zip = v) ∧
  (p.zip = none → m.zip = old.zip) ∧
  (∀ v, p.phoneNumber = some v → m.phoneNumber = v) ∧
  (p.phoneNumber = none → m.phoneNumber = old.phoneNumber) ∧
  (∀ v, p.email = some v → m.email = v) ∧
  (p.email = none → m.email = old.email)

/-- The single-field match the search handler applies for a city query. -/
def cityMatches (q : String) (k : Contact) : Bool :=
  lowerStr k.city == trimStr (lowerStr q)

/-- The single-field match the search handler applies for a state query. -/
def stateMatches (q : String) (k : Contact) : Bool :=
  lowerStr k.state == trimStr (lowerStr q)

/-! ## Concrete records used by counterexamples and witnesses -/

/-- A contact passing every validation rule. -/
def john : Contact :=
  { firstName := "John", lastName := "Smith", address := "221B Baker St"
    city := "London", state := "Texas", zip := "12345"
    phoneNumber := "1234567890", email := "a@b.co" }

/-- A contact whose stored city carries surrounding whitespace. -/
def bostonContact : Contact :=
  { firstName := "John", lastName := "Smith", address := "221B Baker St"
    city := " boston ", state := "Texas", zip := "12345"
    phoneNumber := "1234567890", email := "a@b.co" }

/-- A store holding one book with the whitespace-city contact. -/
def searchCexBooks : AddressBooks := [("MyBook", [bostonContact])]

/-- A store holding one book with the contact `john`. -/
def friendsBooks : AddressBooks := [("Friends", [john])]

/-- A store holding one empty book. -/
def emptyFriends : AddressBooks := [("Friends", [])]

/-- A second contact sharing the name of `john` but with an invalid zip. -/
def johnBadZip : Contact :=
  { firstName := "John", lastName := "Smith", address := "10 Main Road"
    city := "Boston", state := "Maine", zip := "12"
    phoneNumber := "1234567890", email := "a@b.co" }

/-- A second valid contact sharing the name of `john`. -/
def johnTwin : Contact :=
  { firstName := "John", lastName := "Smith", address := "10 Main Road"
    city := "Boston", state := "Maine", zip := "54321"
    phoneNumber := "0987654321", email := "c@d.org" }

/-- A payload that overwrites the zip with an invalid value. -/
def badZipPayload : Payload :=
  { firstName := none, lastName := none, address := none, city := none
    state := none, zip := some "12", phoneNumber := none, email := none }

/-- The store after adding `john` to the empty Friends book. -/
def dupBooks1 : AddressBooks := (addContact emptyFriends "Friends" john).2

/-! ## Helper lemmas about the store -/

theorem getBook_setBook_self : ∀ (books : AddressBooks) (name : String)
    (cs₀ cs : List Contact), getBook books name = some cs₀ →
    getBook (setBook books name cs) name = some cs
  | [], _, _, _, h => by simp [getBook] at h
  | (k, v) :: rest, name, cs₀, cs, h => by
      by_cases hk : k = name
      · simp [getBook, setBook, hk]
      · simp only [getBook, setBook, if_neg hk] at h ⊢
        exact getBook_setBook_self rest name cs₀ cs h

theorem getBook_setBook_other : ∀ (books : AddressBooks) (name other : String)
    (cs : List Contact), other ≠ name →
    getBook (setBook books name cs) other = getBook books other
  | [], _, _, _, _ => rfl
  | (k, v) :: rest, name, other, cs, h => by
      by_cases hk : k = name
      · have hko : ¬(k = other) := fun hh => h (by rw [← hh]; exact hk)
        simp [getBook, setBook, hk, hko, Ne.symm h]
      · by_cases hko : k = other
        · simp [getBook, setBook, hk, hko, h]
        · simp only [getBook, setBook, if_neg hk, if_neg hko]
          exact getBook_setBook_other rest name other cs h

/-- A successful `find?` splits the list at the first match, and
`replaceFirst` substitutes exactly there. -/
theorem find?_replaceFirst (pf : Contact → Bool) (m old : Contact) :
    ∀ cs : List Contact, cs.find? pf = some old →
      ∃ pre post, cs = pre ++ old :: post ∧ (∀ k ∈ pre, pf k = false) ∧
        replaceFirst pf m cs = pre ++ m :: post
  | [], h => by simp [List.find?] at h
  | k :: rest, h => by
      cases hk : pf k with
      | true =>
        rw [List.find?_cons_of_pos _ hk] at h
        obtain rfl : k = old := by injection h
        exact ⟨[], rest, by simp, by simp, by simp [replaceFirst, hk]⟩
      | false =>
        rw [List.find?_cons_of_neg _ (by simp [hk])] at h
        obtain ⟨pre, post, hcs, hpre, hrep⟩ := find?_replaceFirst pf m old rest h
        refine ⟨k :: pre, post, by simp [hcs], ?_, by simp [replaceFirst, hk, hrep]⟩
        intro x hx
        rcases List.mem_cons.mp hx with rfl | hx
        · exact hk
        · exact hpre x hx

/-- A successful main-variant add must have taken the append branch. -/
theorem addContact_ok_inv (books : AddressBooks) (bk : String)
    (cs : List Contact) (c : Contact) (hb : getBook books bk = some cs)
    (h1 : (addContact books bk c).1 = AddResult.ok c) :
    (addContact books bk c).2 = setBook books bk (cs ++ [c]) := by
  cases hvc : isValidContact c with
  | false => simp [addContact, hb, hvc] at h1
  | true =>
    cases hd : cs.any (fun k =>
        k.firstName == c.firstName && k.lastName == c.lastName) with
    | true => simp [addContact, hb, hvc, hd] at h1
    | false => simp [addContact, hb, hvc, hd]

/-- The main-variant add answers duplicate and keeps the store unchanged
when a stored contact carries the same names. -/
theorem addContact_dup_state (books : AddressBooks) (bk : String)
    (cs : List Contact) (c' : Contact) (hb : getBook books bk = some cs)
    (hv : isValidContact c' = true)
    (hd : cs.any (fun k =>
      k.firstName == c'.firstName && k.lastName == c'.lastName) = true) :
    addContact books bk c' = (AddResult.duplicate, books) := by
  simp [addContact, hb, hv, hd]

/-- The case-insensitive add answers duplicate and keeps the store unchanged
when a stored contact carries the same lowercased names. -/
theorem addContactCI_dup_state (books : AddressBooks) (bk : String)
    (cs : List Contact) (c' : Contact) (hb : getBook books bk = some cs)
    (hv : isValidContact c' = true)
    (hd : cs.any (fun k =>
      lowerStr k.firstName == lowerStr c'.firstName &&
      lowerStr k.lastName == lowerStr c'.lastName) = true) :
    addContactCI books bk c' = (AddResult.duplicate, books) := by
  simp [addContactCI, hb, hv, hd]

/-- A successful case-insensitive add must have taken the append branch. -/
theorem addContactCI_ok_inv (books : AddressBooks) (bk : String)
    (cs : List Contact) (c : Contact) (hb : getBook books bk = some cs)
    (h1 : (addContactCI books bk c).1 = AddResult.ok c) :
    (addContactCI books bk c).2 = setBook books bk (cs ++ [c]) := by
  cases hvc : isValidContact c with
  | false => simp [addContactCI, hb, hvc] at h1
  | true =>
    cases hd : cs.any (fun k =>
        lowerStr k.firstName == lowerStr c.firstName &&
        lowerStr k.lastName == lowerStr c.lastName) with
    | true => simp [addContactCI, hb, hvc, hd] at h1
    | false => simp [addContactCI, hb, hvc, hd]

/-- Field-by-field reading of `Object.assign`. -/
theorem mergeContact_spec (old : Contact) (p : Payload) :
    FieldMergeSpec old p (mergeContact old p) := by
  refine ⟨?_, ?_, ?_, ?_, ?_, ?_, ?_, ?_, ?_, ?_, ?_, ?_, ?_, ?_, ?_, ?_⟩ <;>
    first
      | (intro v hv; simp [mergeContact, hv])
      | (intro hv; simp [mergeContact, hv])

/-! ## Claim theorems -/

/-- C4: the Validator accepts a string as a firstName or lastName exactly
when it starts with an uppercase ASCII letter followed by at least two more
ASCII letters of either case, the anchored regex of `isValidName`; in
particular "ann", "A1" and "Jo" are rejected and "John" is accepted. -/
theorem isValidName_iff_NameSpec :
    (∀ s : String, isValidName s = true ↔ NameSpec s) ∧
    isValidName "ann" = false ∧ isValidName "A1" = false ∧
    isValidName "Jo" = false ∧ isValidName "John" = true := by
  refine ⟨fun s => ?_, by decide, by decide, by decide, by decide⟩
  obtain ⟨data⟩ := s
  cases data with
  | nil => simp [isValidName, NameSpec]
  | cons c rest =>
    simp only [isValidName, NameSpec, isUpperAlpha, isAlphaChar, isLowerAlpha,
      Bool.and_eq_true, Bool.or_eq_true, List.all_eq_true, decide_eq_true_eq]
    constructor
    · rintro ⟨⟨h1, h2⟩, h3⟩
      exact ⟨c, rest, rfl, h1, fun d hd => h2 d hd, h3⟩
    · rintro ⟨c2, rest2, heq, h1, h2, h3⟩
      obtain ⟨rfl, rfl⟩ := List.cons.injEq .. ▸ heq
      exact ⟨⟨h1, fun d hd => h2 d hd⟩, h3⟩

/-- Witness for C4: the accepted example satisfies the specification
predicate. -/
theorem isValidName_iff_NameSpec_inst : NameSpec "John" :=
  (isValidName_iff_NameSpec.1 "John").mp (by decide)

/-- C1: adding a valid, non-duplicate contact to a known book appends it:
the listing afterwards is the previous sequence unchanged, in its original
order, with the new contact at the last position, occurring exactly once. -/
theorem addContact_append (books : AddressBooks) (bk : String)
    (cs : List Contact) (c : Contact)
    (hb : getBook books bk = some cs)
    (hv : isValidContact c = true)
    (hd : cs.any (fun k =>
      k.firstName == c.firstName && k.lastName == c.lastName) = false) :
    (addContact books bk c).1 = AddResult.ok c ∧
    listContacts (addContact books bk c).2 bk = some (cs ++ [c]) ∧
    (cs ++ [c]).count c = 1 := by
  have hstep : addContact books bk c = (AddResult.ok c, setBook books bk (cs ++ [c])) := by
    simp [addContact, hb, hv, hd]
  have hnot : c ∉ cs := by
    intro hmem
    have ht : cs.any (fun k =>
        k.firstName == c.firstName && k.lastName == c.lastName) = true :=
      List.any_eq_true.mpr ⟨c, hmem, by simp⟩
    rw [ht] at hd
    exact Bool.noConfusion hd
  refine ⟨by rw [hstep], ?_, ?_⟩
  · rw [hstep]
    exact getBook_setBook_self books bk cs (cs ++ [c]) hb
  · rw [List.count_append, List.count_eq_zero.mpr hnot]
    simp

/-- Witness for C1 at a concrete empty book and a concrete valid contact. -/
theorem addContact_append_inst :
    (addContact emptyFriends "Friends" john).1 = AddResult.ok john ∧
    listContacts (addContact emptyFriends "Friends" john).2 "Friends" =
      some ([] ++ [john]) ∧
    (([] : List Contact) ++ [john]).count john = 1 :=
  addContact_append emptyFriends "Friends" [] john (by decide) (by decide) (by decide)

/-- C6: when the candidate contact fails any validation rule, addContact on
a known book answers ValidationFailed and leaves every book and every stored
contact exactly as before. -/
theorem addContact_invalid_atomic (books : AddressBooks) (bk : String)
    (cs : List Contact) (c : Contact)
    (hb : getBook books bk = some cs)
    (hv : isValidContact c = false) :
    addContact books bk c = (AddResult.validationFailed, books) := by
  simp [addContact, hb, hv]

/-- Witness for C6: a contact with a two-digit zip is rejected and the store
is returned unchanged. -/
theorem addContact_invalid_atomic_inst :
    addContact friendsBooks "Friends" johnBadZip =
      (AddResult.validationFailed, friendsBooks) :=
  addContact_invalid_atomic friendsBooks "Friends" [john] johnBadZip
    (by decide) (by decide)

/-- C2 counterexample: with " boston " stored and query "BOSTON", the search
handler trims the query value, not the stored value, so the stored contact
is not returned, against the claimed match. -/
theorem searchContacts_storedTrim_cex :
    bostonContact.city = " boston " ∧
    getBook searchCexBooks "MyBook" = some [bostonContact] ∧
    searchContacts searchCexBooks "MyBook" (some "BOSTON") none = some [] := by
  refine ⟨rfl, rfl, ?_⟩
  decide

/-- C2 amended: searchContacts returns exactly the stored contacts, in
stored order, whose lowercased field equals the lowercased and then trimmed
query value for every truthy filter (whitespace is ignored in the query
value, not in the stored value), the filters combining by logical AND. -/
theorem searchContacts_filter_spec (books : AddressBooks) (bk : String)
    (cs : List Contact) (city state : Option String)
    (hb : getBook books bk = some cs) :
    searchContacts books bk city state =
      some (cs.filter (fun k =>
        (!truthy city || cityMatches (city.getD "") k) &&
        (!truthy state || stateMatches (state.getD "") k))) := by
  simp only [searchContacts, hb, locFilter]
  cases hc : truthy city <;> cases hs : truthy state
  · simp
  · simp [stateMatches]
  · simp [cityMatches]
  · simp only [Bool.not_true, Bool.false_or, if_pos, List.filter_filter]
    refine congrArg some (List.filter_congr ?_)
    intro a _
    simp only [cityMatches, stateMatches]
    exact Bool.and_comm _ _

/-- Witness for C2 amended at the concrete store of the counterexample. -/
theorem searchContacts_filter_spec_inst :
    searchContacts searchCexBooks "MyBook" (some "BOSTON") none =
      some ([bostonContact].filter (fun k =>
        (!truthy (some "BOSTON") || cityMatches ((some "BOSTON").getD "") k) &&
        (!truthy (none : Option String) ||
          stateMatches ((none : Option String).getD "") k))) :=
  searchContacts_filter_spec searchCexBooks "MyBook" [bostonContact]
    (some "BOSTON") none (by decide)

/-- C3 counterexample: in the main variant a successful delete followed by a
repeat of the same delete still reports success, not ContactNotFound. -/
theorem deleteContact_idem_cex :
    (deleteContact friendsBooks "Friends" "John").1 = DelResult.ok ∧
    getBook (deleteContact friendsBooks "Friends" "John").2 "Friends" = some [] ∧
    (deleteContact (deleteContact friendsBooks "Friends" "John").2
      "Friends" "John").1 = DelResult.ok ∧
    DelResult.ok ≠ DelResult.contactNotFound := by
  decide

/-- C3 amended: the main variant removes exactly the firstName matches but
always reports success on a known book; the part_002 variant removes exactly
the contacts whose firstName or lastName matches, fails with ContactNotFound
whenever nothing matches, and in particular fails with ContactNotFound when
a successful delete is repeated. -/
theorem deleteContact_amended (books : AddressBooks) (bk name : String)
    (cs : List Contact) (hb : getBook books bk = some cs) :
    ((deleteContact books bk name).1 = DelResult.ok ∧
     getBook (deleteContact books bk name).2 bk =
       some (cs.filter (fun k => !(k.firstName == name)))) ∧
    (cs.any (fun k => k.firstName == name || k.lastName == name) = false →
       deleteContactV2 books bk name = (DelResult.contactNotFound, books)) ∧
    (cs.any (fun k => k.firstName == name || k.lastName == name) = true →
       (deleteContactV2 books bk name).1 = DelResult.ok ∧
       getBook (deleteContactV2 books bk name).2 bk =
         some (cs.filter (fun k =>
           !(k.firstName == name) && !(k.lastName == name))) ∧
       (deleteContactV2 (deleteContactV2 books bk name).2 bk name).1 =
         DelResult.contactNotFound) := by
  refine ⟨⟨?_, ?_⟩, ?_, ?_⟩
  · simp [deleteContact, hb]
  · simp only [deleteContact, hb]
    exact getBook_setBook_self books bk cs _ hb
  · intro hno
    have hfe : cs.filter (fun k =>
        !(k.firstName == name) && !(k.lastName == name)) = cs := by
      apply List.filter_eq_self.mpr
      intro a ha
      cases h1 : (a.firstName == name) with
      | true =>
        exfalso
        have ht : cs.any (fun k =>
            k.firstName == name || k.lastName == name) = true :=
          List.any_eq_true.mpr ⟨a, ha, by simp [h1]⟩
        rw [ht] at hno
        exact Bool.noConfusion hno
      | false =>
        cases h2 : (a.lastName == name) with
        | true =>
          exfalso
          have ht : cs.any (fun k =>
              k.firstName == name || k.lastName == name) = true :=
            List.any_eq_true.mpr ⟨a, ha, by simp [h2]⟩
          rw [ht] at hno
          exact Bool.noConfusion hno
        | false => simp [h1, h2]
    simp [deleteContactV2, hb, hfe]
  · intro hyes
    obtain ⟨w, hw, hpw⟩ := List.any_eq_true.mp hyes
    have hqw : (!(w.firstName == name) && !(w.lastName == name)) = false := by
      rcases Bool.or_eq_true_iff.mp hpw with h | h
      · simp [h]
      · simp [h]
    have hne : cs.filter (fun k =>
        !(k.firstName == name) && !(k.lastName == name)) ≠ cs := by
      intro heq
      have hself := List.filter_eq_self.mp heq w hw
      rw [hqw] at hself
      exact Bool.noConfusion hself
    have hlen : (cs.length == (cs.filter (fun k =>
        !(k.firstName == name) && !(k.lastName == name))).length) = false := by
      cases hx : (cs.length == (cs.filter (fun k =>
          !(k.firstName == name) && !(k.lastName == name))).length) with
      | false => rfl
      | true =>
        exfalso
        have hleq : (cs.filter (fun k =>
            !(k.firstName == name) && !(k.lastName == name))).length = cs.length :=
          (eq_of_beq hx).symm
        exact hne ((List.filter_sublist cs).eq_of_length hleq)
    have hstep : deleteContactV2 books bk name =
        (DelResult.ok, setBook books bk (cs.filter (fun k =>
          !(k.firstName == name) && !(k.lastName == name)))) := by
      simp only [deleteContactV2, hb]
      rw [hlen]
      simp
    have hb2 : getBook (setBook books bk (cs.filter (fun k =>
        !(k.firstName == name) && !(k.lastName == name)))) bk =
        some (cs.filter (fun k =>
          !(k.firstName == name) && !(k.lastName == name))) :=
      getBook_setBook_self books bk cs _ hb
    have hff : (cs.filter (fun k =>
        !(k.firstName == name) && !(k.lastName == name))).filter (fun k =>
          !(k.firstName == name) && !(k.lastName == name)) =
        cs.filter (fun k => !(k.firstName == name) && !(k.lastName == name)) := by
      apply List.filter_eq_self.mpr
      intro a ha
      exact (List.mem_filter.mp ha).2
    refine ⟨by rw [hstep], by rw [hstep]; exact hb2, ?_⟩
    rw [hstep]
    simp [deleteContactV2, hb2, hff]

/-- Witness for C3 amended: deleting John from the one-contact book succeeds,
empties the book, and a repeat answers ContactNotFound. -/
theorem deleteContact_amended_inst :
    (deleteContactV2 friendsBooks "Friends" "John").1 = DelResult.ok ∧
    getBook (deleteContactV2 friendsBooks "Friends" "John").2 "Friends" =
      some ([john].filter (fun k =>
        !(k.firstName == "John") && !(k.lastName == "John"))) ∧
    (deleteContactV2 (deleteContactV2 friendsBooks "Friends" "John").2
      "Friends" "John").1 = DelResult.contactNotFound :=
  (deleteContact_amended friendsBooks "Friends" "John" [john] (by decide)).2.2
    (by decide)

/-- C5 counterexample: after a successful add of john, a second contact with
the same first and last name but an invalid zip fails with ValidationFailed
rather than DuplicateContact, because validation runs before the duplicate
check. -/
theorem addContact_dup_cex :
    (addContact emptyFriends "Friends" john).1 = AddResult.ok john ∧
    johnBadZip.firstName = john.firstName ∧
    johnBadZip.lastName = john.lastName ∧
    addContact dupBooks1 "Friends" johnBadZip =
      (AddResult.validationFailed, dupBooks1) ∧
    AddResult.validationFailed ≠ AddResult.duplicate := by
  decide

/-- C5 amended: in both duplicate-checking variants, after a successful add
of c, a second add of a contact that passes every validation rule and
carries the same (firstName, lastName) fails with DuplicateContact and
leaves the store unchanged. -/
theorem addContact_dup_amended (books : AddressBooks) (bk : String)
    (cs : List Contact) (c c' : Contact)
    (hb : getBook books bk = some cs)
    (hA : (addContact books bk c).1 = AddResult.ok c)
    (hB : (addContactCI books bk c).1 = AddResult.ok c)
    (hv : isValidContact c' = true)
    (hf : c'.firstName = c.firstName) (hl : c'.lastName = c.lastName) :
    addContact (addContact books bk c).2 bk c' =
      (AddResult.duplicate, (addContact books bk c).2) ∧
    addContactCI (addContactCI books bk c).2 bk c' =
      (AddResult.duplicate, (addContactCI books bk c).2) := by
  have hsA := addContact_ok_inv books bk cs c hb hA
  have hsB := addContactCI_ok_inv books bk cs c hb hB
  have hb2 : getBook (addContact books bk c).2 bk = some (cs ++ [c]) := by
    rw [hsA]
    exact getBook_setBook_self books bk cs _ hb
  have hb2ci : getBook (addContactCI books bk c).2 bk = some (cs ++ [c]) := by
    rw [hsB]
    exact getBook_setBook_self books bk cs _ hb
  have hdupA : (cs ++ [c]).any (fun k =>
      k.firstName == c'.firstName && k.lastName == c'.lastName) = true :=
    List.any_eq_true.mpr ⟨c, by simp, by simp [hf, hl]⟩
  have hdupB : (cs ++ [c]).any (fun k =>
      lowerStr k.firstName == lowerStr c'.firstName &&
      lowerStr k.lastName == lowerStr c'.lastName) = true :=
    List.any_eq_true.mpr ⟨c, by simp, by simp [hf, hl]⟩
  constructor
  · exact addContact_dup_state _ bk (cs ++ [c]) c' hb2 hv hdupA
  · exact addContactCI_dup_state _ bk (cs ++ [c]) c' hb2ci hv hdupB

/-- Witness for C5 amended: a valid twin of john is rejected as a duplicate
by both variants. -/
theorem addContact_dup_amended_inst :
    addContact (addContact emptyFriends "Friends" john).2 "Friends" johnTwin =
      (AddResult.duplicate, (addContact emptyFriends "Friends" john).2) ∧
    addContactCI (addContactCI emptyFriends "Friends" john).2 "Friends" johnTwin =
      (AddResult.duplicate, (addContactCI emptyFriends "Friends" john).2) :=
  addContact_dup_amended emptyFriends "Friends" [] john johnTwin
    (by decide) (by decide) (by decide) (by decide) rfl rfl

/-- C7: updating a stored contact merges the payload onto the first record
whose firstName matches, position preserved, every other contact of the book
and every other book unchanged; payload fields overwrite, absent fields are
retained. -/
theorem updateContact_merge_frame (books : AddressBooks) (bk name : String)
    (p : Payload) (cs : List Contact) (old : Contact)
    (hb : getBook books bk = some cs)
    (hf : cs.find? (fun k => k.firstName == name) = some old) :
    (updateContact books bk name p).1 = UpdResult.ok (mergeContact old p) ∧
    (∃ pre post, cs = pre ++ old :: post ∧
       (∀ k ∈ pre, (k.firstName == name) = false) ∧
       getBook (updateContact books bk name p).2 bk =
         some (pre ++ mergeContact old p :: post)) ∧
    (∀ b2, b2 ≠ bk → getBook (updateContact books bk name p).2 b2 = getBook books b2) ∧
    FieldMergeSpec old p (mergeContact old p) := by
  have hstep : updateContact books bk name p =
      (UpdResult.ok (mergeContact old p),
       setBook books bk
         (replaceFirst (fun k => k.firstName == name) (mergeContact old p) cs)) := by
    simp [updateContact, hb, hf]
  obtain ⟨pre, post, hcs, hpre, hrep⟩ :=
    find?_replaceFirst (fun k => k.firstName == name) (mergeContact old p) old cs hf
  refine ⟨by rw [hstep], ⟨pre, post, hcs, hpre, ?_⟩, ?_, mergeContact_spec old p⟩
  · rw [hstep, hrep]
    exact getBook_setBook_self books bk cs _ hb
  · intro b2 hb2
    rw [hstep]
    exact getBook_setBook_other books bk b2 _ hb2

/-- Witness for C7: updating John with a zip-only payload rewrites the zip
and keeps the remaining fields. -/
theorem updateContact_merge_frame_inst :
    (updateContact friendsBooks "Friends" "John" badZipPayload).1 =
      UpdResult.ok (mergeContact john badZipPayload) ∧
    (∃ pre post, [john] = pre ++ john :: post ∧
       (∀ k ∈ pre, (k.firstName == "John") = false) ∧
       getBook (updateContact friendsBooks "Friends" "John" badZipPayload).2
         "Friends" = some (pre ++ mergeContact john badZipPayload :: post)) ∧
    (∀ b2, b2 ≠ "Friends" →
       getBook (updateContact friendsBooks "Friends" "John" badZipPayload).2 b2 =
         getBook friendsBooks b2) ∧
    FieldMergeSpec john badZipPayload (mergeContact john badZipPayload) :=
  updateContact_merge_frame friendsBooks "Friends" "John" badZipPayload
    [john] john (by decide) (by decide)

/-- C8: the update handler runs no validation: it never answers
ValidationFailed, it answers BookNotFound exactly when the book is unknown,
ContactNotFound exactly when no stored firstName matches, and succeeds for
every payload whenever the book and a matching contact exist. -/
theorem updateContact_no_validation (books : AddressBooks) (bk name : String)
    (p : Payload) :
    (updateContact books bk name p).1 ≠ UpdResult.validationFailed ∧
    ((updateContact books bk name p).1 = UpdResult.bookNotFound ↔
       getBook books bk = none) ∧
    ((updateContact books bk name p).1 = UpdResult.contactNotFound ↔
       ∃ cs, getBook books bk = some cs ∧
         cs.find? (fun k => k.firstName == name) = none) ∧
    (∀ cs old, getBook books bk = some cs →
       cs.find? (fun k => k.firstName == name) = some old →
       (updateContact books bk name p).1 = UpdResult.ok (mergeContact old p)) := by
  cases hgb : getBook books bk with
  | none =>
    have hstep : updateContact books bk name p = (UpdResult.bookNotFound, books) := by
      simp [updateContact, hgb]
    refine ⟨by simp [hstep], by simp [hstep], ?_, ?_⟩
    · constructor
      · intro hcon
        rw [hstep] at hcon
        exact UpdResult.noConfusion hcon
      · rintro ⟨cs2, h1, h2⟩
        exact Option.noConfusion h1
    · intro cs old h1 h2
      exact Option.noConfusion h1
  | some cs =>
    cases hfd : cs.find? (fun k => k.firstName == name) with
    | none =>
      have hstep : updateContact books bk name p =
          (UpdResult.contactNotFound, books) := by
        simp [updateContact, hgb, hfd]
      refine ⟨by simp [hstep], by simp [hstep], ?_, ?_⟩
      · constructor
        · intro _
          exact ⟨cs, rfl, hfd⟩
        · intro _
          rw [hstep]
      · intro cs2 old h1 h2
        obtain rfl := Option.some.inj h1
        rw [hfd] at h2
        exact Option.noConfusion h2
    | some old =>
      have hstep : updateContact books bk name p =
          (UpdResult.ok (mergeContact old p),
           setBook books bk (replaceFirst (fun k => k.firstName == name)
             (mergeContact old p) cs)) := by
        simp [updateContact, hgb, hfd]
      refine ⟨by simp [hstep], by simp [hstep], ?_, ?_⟩
      · constructor
        · intro hcon
          rw [hstep] at hcon
          exact UpdResult.noConfusion hcon
        · rintro ⟨cs2, h1, h2⟩
          obtain rfl := Option.some.inj h1
          rw [hfd] at h2
          exact Option.noConfusion h2
      · intro cs2 old2 h1 h2
        obtain rfl := Option.some.inj h1
        rw [hfd] at h2
        obtain rfl := Option.some.inj h2
        rw [hstep]

/-- Witness for C8: the update succeeds although the merged record fails the
zip validation rule. -/
theorem updateContact_no_validation_inst :
    (updateContact friendsBooks "Friends" "John" badZipPayload).1 =
      UpdResult.ok (mergeContact john badZipPayload) ∧
    isValidContact (mergeContact john badZipPayload) = false :=
  ⟨(updateContact_no_validation friendsBooks "Friends" "John" badZipPayload).2.2.2
      [john] john (by decide) (by decide), by decide⟩

/-- C9: countByLocation applies exactly the filtering of searchContacts, so
its count equals the length of the search result on the same store, and it
echoes each truthy filter value, substituting "N/A" for an absent one. -/
theorem countByLocation_matches_search (books : AddressBooks) (bk : String)
    (city state : Option String) (cs : List Contact)
    (hb : getBook books bk = some cs) :
    ∃ l, searchContacts books bk city state = some l ∧
      countByLocation books bk city state =
        some { city := if truthy city then city.getD "" else "N/A"
               state := if truthy state then state.getD "" else "N/A"
               count := l.length : CountResponse } :=
  ⟨locFilter cs city state, by simp [searchContacts, hb],
    by simp [countByLocation, hb]⟩

/-- Witness for C9 at a concrete store and a single city filter. -/
theorem countByLocation_matches_search_inst :
    ∃ l, searchContacts searchCexBooks "MyBook" (some "BOSTON") none = some l ∧
      countByLocation searchCexBooks "MyBook" (some "BOSTON") none =
        some { city := if truthy (some "BOSTON") then (some "BOSTON").getD "" else "N/A"
               state := if truthy (none : Option String) then
                   (none : Option String).getD "" else "N/A"
               count := l.length : CountResponse } :=
  countByLocation_matches_search searchCexBooks "MyBook" (some "BOSTON") none
    [bostonContact] (by decide)

/-- C10: an empty-string filter value behaves as an absent filter in both
the search and the count handler; with both filters empty every stored
contact of the book is returned and counted, with "N/A" echoed. -/
theorem emptyFilter_ignored (books : AddressBooks) (bk : String)
    (cs : List Contact) (hb : getBook books bk = some cs) :
    (∀ stq, searchContacts books bk (some "") stq =
       searchContacts books bk none stq) ∧
    (∀ cq, searchContacts books bk cq (some "") =
       searchContacts books bk cq none) ∧
    (∀ stq, countByLocation books bk (some "") stq =
       countByLocation books bk none stq) ∧
    (∀ cq, countByLocation books bk cq (some "") =
       countByLocation books bk cq none) ∧
    searchContacts books bk (some "") (some "") = some cs ∧
    countByLocation books bk (some "") (some "") =
      some { city := "N/A", state := "N/A", count := cs.length : CountResponse } := by
  have ht : truthy (some "") = false := rfl
  refine ⟨?_, ?_, ?_, ?_, ?_, ?_⟩ <;>
    simp [searchContacts, countByLocation, locFilter, truthy, hb]

/-- Witness for C10 at a concrete one-contact book. -/
theorem emptyFilter_ignored_inst :
    searchContacts searchCexBooks "MyBook" (some "") (some "") =
      some [bostonContact] ∧
    countByLocation searchCexBooks "MyBook" (some "") (some "") =
      some { city := "N/A", state := "N/A"
             count := [bostonContact].length : CountResponse } :=
  ⟨(emptyFilter_ignored searchCexBooks "MyBook" [bostonContact] (by decide)).2.2.2.2.1,
   (emptyFilter_ignored searchCexBooks "MyBook" [bostonContact] (by decide)).2.2.2.2.2⟩

end Server

